import Mathlib

/-!
Shallow embedding of `csrc/quantization/fp8/amd/gemm_kernel.cu`.

The file under verification is a thin wrapper that validates tensor
metadata, infers transpose layout from strides, configures a hipBLASLt
GEMM problem and launches it.  The embedding keeps the wrapper's control
flow line by line; every interaction with the vendor library (hipBLASLt)
or the HIP runtime is recorded as an `Event` in an output trace, and the
statuses those opaque calls would return are supplied as inputs in a
`VendorEnv` record.  Device pointers are abstract `Nat` addresses.
-/

namespace VllmFp8

/-- Torch scalar types that occur in the wrapper's checks. -/
inductive DType
  | float8_e4m3fnuz
  | float16
  | bfloat16
  | float32
  deriving DecidableEq, Repr

/-- Metadata view of a `torch::Tensor`: dtype, sizes, strides and the
device address of its storage.  The `data` field models the tensor's
element payload; the wrapper only ever forwards the address, so the
payload is carried solely to state data-independence theorems. -/
structure Tensor where
  dtype : DType
  sizes : List Int
  strides : List Int
  dataPtr : Nat
  data : List Int
  deriving DecidableEq, Repr

/-- The method `tensor.dim()` is the number of dimensions. -/
def Tensor.dim (t : Tensor) : Nat := t.sizes.length

/-- The operation flag `hipblasOperation_t`: `HIPBLAS_OP_N` or `HIPBLAS_OP_T`. -/
inductive HipblasOp
  | N
  | T
  deriving DecidableEq, Repr

/-- The hip data types mentioned in the wrapper. -/
inductive HipblasDatatype
  | r8fE4m3Fnuz
  | r16f
  | r16bf
  deriving DecidableEq, Repr

/-- An opaque `hipblasLtMatmulAlgo_t`, identified by the index the
vendor library associates with it. -/
structure Algo where
  id : Int
  deriving DecidableEq, Repr

/-- One entry of a `std::vector<hipblasLtMatmulHeuristicResult_t>`. -/
structure HeuristicResult where
  algo : Algo
  deriving DecidableEq, Repr

/-- The `hipblaslt_ext::GemmInputs` struct filled at lines 162-171.
Pointers are abstract addresses; the null `scaleD` pointer is `none`.
`alpha` and `beta` are the float constants `1.0f` and `0.0f` of the
source, recorded as integers. -/
structure GemmInputs where
  a : Nat
  b : Nat
  c : Nat
  d : Nat
  alpha : Int
  beta : Int
  scaleA : Nat
  scaleB : Nat
  scaleD : Option Nat
  deriving DecidableEq, Repr

/-- One call into the HIP runtime or the hipBLASLt extension library,
with the arguments the wrapper hands over. -/
inductive Event
  | hipMalloc (bytes : Nat)
  | hipFree (ptr : Nat)
  | setMaxWorkspaceBytes (bytes : Nat)
  | gemmConstruct (op_a op_b : HipblasOp) (ta tb tc td : HipblasDatatype)
  | setProblem (m n k batch lda ldb ldc ldd strideA strideB strideC strideD : Int)
      (inputs : GemmInputs)
  | algoGetHeuristic (requested : Nat)
  | getAlgosFromIndex (idx : Int)
  | initAlgo (algo : Algo) (workspacePtr : Nat)
  | run
  deriving DecidableEq, Repr

/-- How an invocation of the wrapper can end abnormally. -/
inductive Err
  /-- a `TORCH_CHECK` failed and threw a `c10::Error` with this message. -/
  | checkError (msg : String)
  /-- the `TORCH_CUDABLAS_CHECK` macro failed and threw, carrying the status. -/
  | cudaBlasCheck (status : Nat)
  /-- the process called `exit(code)` inside a `CHECK_HIP_ERROR` or
  `CHECK_HIPBLASLT_ERROR` macro expansion. -/
  | exited (code : Nat)
  /-- an `assert(false && msg)` branch was reached (with `NDEBUG` the
  program would instead read an uninitialized flag, which is undefined). -/
  | assertFail (msg : String)
  /-- the subscript `std::vector::operator[]` was applied out of bounds
  (undefined behaviour), on the named vector. -/
  | oobIndex (vec : String)
  deriving DecidableEq, Repr

def hipSuccess : Nat := 0

def HIPBLAS_STATUS_SUCCESS : Nat := 0

def EXIT_FAILURE : Nat := 1

/-- The `CHECK_HIP_ERROR` macro of lines 19-26: any status other than
`hipSuccess` prints to stderr and calls `exit(EXIT_FAILURE)`. -/
def CHECK_HIP_ERROR (error : Nat) : Except Err Unit :=
  if error ≠ hipSuccess then .error (.exited EXIT_FAILURE) else .ok ()

/-- The `CHECK_HIPBLASLT_ERROR` macro of lines 28-35: any status other
than `HIPBLAS_STATUS_SUCCESS` prints to stderr and calls
`exit(EXIT_FAILURE)`. -/
def CHECK_HIPBLASLT_ERROR (error : Nat) : Except Err Unit :=
  if error ≠ HIPBLAS_STATUS_SUCCESS then .error (.exited EXIT_FAILURE) else .ok ()

/-- The two file-scope globals `workspace` and `workspace_size`
(lines 37-38). -/
structure GlobalState where
  workspace : Nat
  workspace_size : Nat
  deriving DecidableEq, Repr

/-- Responses of the opaque vendor library for one wrapper invocation:
the heuristic result vector and the status each call returns. -/
structure VendorEnv where
  heuristicResult : List HeuristicResult
  heuristicStatus : Nat
  getIndexFromAlgo : Algo → Int
  algosFromIndex : Int → List HeuristicResult
  getAlgosStatus : Nat
  setProblemStatus : Nat
  initStatus : Nat
  runStatus : Nat

/-- The whitespace characters `std::isspace` accepts in the default
locale, which `std::stoi` skips. -/
def isSpaceChar (c : Char) : Bool :=
  c = ' ' || c = '\t' || c = '\n' || c = '\x0b' || c = '\x0c' || c = '\r'

/-- The two exceptions `std::stoi` can throw. -/
inductive StoiErr
  | invalidArg
  | outOfRange
  deriving DecidableEq, Repr

def INT_MAX : Int := 2147483647

def INT_MIN : Int := -2147483648

/-- The parse function `std::stoi(s)` with base 10: skip leading whitespace, read an
optional sign and a nonempty digit sequence (trailing characters are
ignored), then range-check against `int`. -/
def stoi (s : String) : Except StoiErr Int :=
  let cs := s.data.dropWhile isSpaceChar
  let signAndRest : Bool × List Char :=
    match cs with
    | '-' :: rest => (true, rest)
    | '+' :: rest => (false, rest)
    | _ => (false, cs)
  let ds := signAndRest.2.takeWhile Char.isDigit
  if ds.isEmpty then .error .invalidArg
  else
    let mag : Int := (ds.foldl (fun acc c => acc * 10 + (c.toNat - 48)) 0 : Nat)
    let v : Int := if signAndRest.1 then -mag else mag
    if v < INT_MIN || INT_MAX < v then .error .outOfRange else .ok v

/-- Arithmetic on `size_t` is modulo `2 ^ 64`. -/
def SIZE_T_MOD : Nat := 2 ^ 64

/-- Conversion of an `int` value to `size_t` (reduction modulo `2^64`). -/
def intToSizeT (v : Int) : Nat := (v % (SIZE_T_MOD : Int)).toNat

/-- Narrowing conversion of an `int64_t` value to a 32-bit `int`:
two's-complement wrap into `[-2^31, 2^31)`. -/
def intToInt32 (v : Int) : Int := (v + 2 ^ 31) % 2 ^ 32 - 2 ^ 31

/-- The function `get_hipblaslt_workspace_size` (lines 42-60): start from the default
of `32 * 1024` KiB, overwrite it with `std::stoi(env)` when the
environment variable is set and parses (a thrown exception keeps the
default and only warns), and return the KiB count times 1024. -/
def get_hipblaslt_workspace_size (env : Option String) : Nat :=
  match env with
  | none => (32 * 1024) * 1024
  | some s =>
    match stoi s with
    | .error _ => (32 * 1024) * 1024
    | .ok v => (intToSizeT v * 1024) % SIZE_T_MOD

/-- The function `create_workspace` (lines 62-66): store the computed size in the
global, and when it is positive call `hipMalloc`, storing the returned
device address in the global `workspace` pointer.  `allocPtr` and
`allocStatus` stand for what `hipMalloc` would produce. -/
def create_workspace (envVar : Option String) (allocPtr allocStatus : Nat)
    (st : GlobalState) : Except Err Unit × GlobalState × List Event :=
  let ws := get_hipblaslt_workspace_size envVar
  let st1 : GlobalState := { st with workspace_size := ws }
  if ws > 0 then
    match CHECK_HIP_ERROR allocStatus with
    | .error e => (.error e, st1, [Event.hipMalloc ws])
    | .ok _ => (.ok (), { st1 with workspace := allocPtr }, [Event.hipMalloc ws])
  else (.ok (), st1, [])

/-- Line 98: `constexpr bool transpose_result = true;`. -/
def transpose_result : Bool := true

/-- The stride-pattern test of lines 101-120, shared by both operands:
column-major strides give `some false`, row-major strides give
`some true`, and any other pattern reaches the `assert(false)` branch,
modelled as `none`. -/
def inferTranspose (strides sizes : List Int) : Option Bool :=
  if strides.getD 0 0 = 1 ∧ strides.getD 1 0 ≥ max 1 (sizes.getD 0 0) then
    some false
  else if strides.getD 1 0 = 1 ∧ strides.getD 0 0 ≥ max 1 (sizes.getD 1 0) then
    some true
  else
    none

/-- The output-dtype dispatch of lines 89-96. -/
def hipblasOutType (out_dtype : DType) : HipblasDatatype :=
  if out_dtype = .float8_e4m3fnuz then .r8fE4m3Fnuz
  else if out_dtype = .bfloat16 then .r16bf
  else .r16f

/-- Lines 194-201: `algoIndex[0] = algo_idx` stores the `int64_t` index
into a `std::vector<int>`, narrowing it to 32-bit (`intToInt32`); then
fetch the algorithm object for that narrowed index with
`getAlgosFromIndex` (guarded by `TORCH_CUDABLAS_CHECK`), then
`gemm.initialize(tmpAlgo[0].algo, workspace)` and `gemm.run(stream)`,
each guarded by `CHECK_HIPBLASLT_ERROR`. -/
def fp8_mm_finish (st : GlobalState) (venv : VendorEnv) (algo_idx : Int)
    (trace : List Event) : Except Err Unit × List Event :=
  let algoIndex0 := intToInt32 algo_idx
  let trace1 := trace ++ [Event.getAlgosFromIndex algoIndex0]
  if venv.getAlgosStatus ≠ HIPBLAS_STATUS_SUCCESS then
    (.error (.cudaBlasCheck venv.getAlgosStatus), trace1)
  else
    match venv.algosFromIndex algoIndex0 with
    | [] => (.error (.oobIndex "tmpAlgo"), trace1)
    | t :: _ =>
      let trace2 := trace1 ++ [Event.initAlgo t.algo st.workspace]
      match CHECK_HIPBLASLT_ERROR venv.initStatus with
      | .error e => (.error e, trace2)
      | .ok _ =>
        let trace3 := trace2 ++ [Event.run]
        match CHECK_HIPBLASLT_ERROR venv.runStatus with
        | .error e => (.error e, trace3)
        | .ok _ => (.ok (), trace3)

/-- Lines 184-193: when `algo_idx == 0`, request exactly one heuristic
solution, read `heuristicResult[0]` (out of bounds when the vector is
empty), and only afterwards run
`TORCH_CHECK(!heuristicResult.empty(), "No valid solution found!")`;
otherwise keep the caller's `algo_idx`. -/
def fp8_mm_selectAlgo (st : GlobalState) (venv : VendorEnv) (algo_idx : Int)
    (trace : List Event) : Except Err Unit × List Event :=
  if algo_idx = 0 then
    let trace1 := trace ++ [Event.algoGetHeuristic 1]
    match CHECK_HIPBLASLT_ERROR venv.heuristicStatus with
    | .error e => (.error e, trace1)
    | .ok _ =>
      match venv.heuristicResult with
      | [] => (.error (.oobIndex "heuristicResult"), trace1)
      | h :: rest =>
        if (h :: rest).isEmpty then
          (.error (.checkError "No valid solution found!"), trace1)
        else fp8_mm_finish st venv (venv.getIndexFromAlgo h.algo) trace1
  else
    fp8_mm_finish st venv algo_idx trace

/-- Lines 122-183 of `fp8_mm`, entered with the two inferred transpose
flags: swap the operands for the transposed result, derive the problem
dimensions and leading dimensions, fill `GemmInputs`, configure the
`Gemm` object and call `setProblem`. -/
def fp8_mm_launch (st : GlobalState) (venv : VendorEnv)
    (a b result scale_a scale_b : Tensor) (scale_result : Option Tensor)
    (algo_idx padding_size : Int) (hipblas_out_type : HipblasDatatype)
    (transpose_a0 transpose_b0 : Bool) : Except Err Unit × List Event :=
  let transpose_a := if transpose_result then !transpose_b0 else transpose_a0
  let transpose_b := if transpose_result then !transpose_a0 else transpose_b0
  let a_sizes := if transpose_result then b.sizes else a.sizes
  let b_sizes := if transpose_result then a.sizes else b.sizes
  let m := a_sizes.getD (if transpose_result then 1 else 0) 0
  let k := a_sizes.getD (if transpose_result then 0 else 1) 0 - padding_size
  let n := b_sizes.getD (if transpose_result then 0 else 1) 0
  let d_a := (if transpose_result then b else a).dataPtr
  let d_b := (if transpose_result then a else b).dataPtr
  let d_d := result.dataPtr
  let d_scale_a := if transpose_result then scale_a.dataPtr else scale_a.dataPtr
  let d_scale_b := if transpose_result then scale_b.dataPtr else scale_b.dataPtr
  let d_scale_d := Option.map Tensor.dataPtr scale_result
  let op_a := if transpose_a then HipblasOp.T else HipblasOp.N
  let op_b := if transpose_b then HipblasOp.T else HipblasOp.N
  let lda := if op_a = HipblasOp.N then m else k + padding_size
  let ldb := if op_b = HipblasOp.N then k else n
  let ldc := m
  let strideA := m * (k + padding_size)
  let strideB := n * k
  let strideC := m * n
  let inputs : GemmInputs :=
    { a := d_a, b := d_b, c := d_d, d := d_d, alpha := 1, beta := 0,
      scaleA := d_scale_a, scaleB := d_scale_b, scaleD := d_scale_d }
  let trace0 :=
    [Event.setMaxWorkspaceBytes st.workspace_size,
     Event.gemmConstruct op_a op_b .r8fE4m3Fnuz .r8fE4m3Fnuz
       hipblas_out_type hipblas_out_type,
     Event.setProblem m n k 1 lda ldb ldc ldc strideA strideB strideC strideC
       inputs]
  match CHECK_HIPBLASLT_ERROR venv.setProblemStatus with
  | .error e => (.error e, trace0)
  | .ok _ => fp8_mm_selectAlgo st venv algo_idx trace0

/-- The entry point `fp8_mm` (lines 68-202): the four `TORCH_CHECK` validations, the
output-type dispatch, the stride-pattern inference for `b` then for `a`
(each may hit `assert(false)`), then the launch sequence. -/
def fp8_mm (st : GlobalState) (venv : VendorEnv)
    (a b result scale_a scale_b : Tensor) (scale_result : Option Tensor)
    (algo_idx padding_size : Int) : Except Err Unit × List Event :=
  if ¬ (a.dtype = .float8_e4m3fnuz ∧ b.dtype = .float8_e4m3fnuz) then
    (.error (.checkError "The input tensors type should be float8_e4m3fnuz."), [])
  else if ¬ (a.dim = 2 ∧ b.dim = 2) then
    (.error (.checkError "Input tensors must be 2-D."), [])
  else if ¬ (a.sizes.getD 1 0 = b.sizes.getD 0 0 - padding_size) then
    (.error (.checkError "a dim 1 must match b dim 0."), [])
  else if ¬ (result.dtype = .float8_e4m3fnuz ∨ result.dtype = .float16 ∨
      result.dtype = .bfloat16) then
    (.error (.checkError
      "Only float16, bfloat16 or float8_e4m3fnuz are supported as the output dtype."), [])
  else
    match inferTranspose b.strides b.sizes with
    | none =>
      (.error (.assertFail
        "unusual strides detected, may need to clone a contiguous tensor"), [])
    | some transpose_b =>
      match inferTranspose a.strides a.sizes with
      | none =>
        (.error (.assertFail
          "unusual strides detected, may need to clone a contiguous tensor"), [])
      | some transpose_a =>
        fp8_mm_launch st venv a b result scale_a scale_b scale_result
          algo_idx padding_size (hipblasOutType result.dtype)
          transpose_a transpose_b

/-- The conjunction of the four `TORCH_CHECK` preconditions of
lines 77-88. -/
def validArgs (a b result : Tensor) (padding_size : Int) : Prop :=
  (a.dtype = .float8_e4m3fnuz ∧ b.dtype = .float8_e4m3fnuz) ∧
  (a.dim = 2 ∧ b.dim = 2) ∧
  a.sizes.getD 1 0 = b.sizes.getD 0 0 - padding_size ∧
  (result.dtype = .float8_e4m3fnuz ∨ result.dtype = .float16 ∨
    result.dtype = .bfloat16)

instance (a b result : Tensor) (padding_size : Int) :
    Decidable (validArgs a b result padding_size) := by
  unfold validArgs; infer_instance

/-- Classification of events by which external call they denote. -/
def evKind : Event → Nat
  | .hipMalloc _ => 0
  | .hipFree _ => 1
  | .setMaxWorkspaceBytes _ => 2
  | .gemmConstruct _ _ _ _ _ _ => 3
  | .setProblem _ _ _ _ _ _ _ _ _ _ _ _ _ => 4
  | .algoGetHeuristic _ => 5
  | .getAlgosFromIndex _ => 6
  | .initAlgo _ _ => 7
  | .run => 8

/-- The argument bundle of one `fp8_mm` call. -/
structure CallArgs where
  a : Tensor
  b : Tensor
  result : Tensor
  scale_a : Tensor
  scale_b : Tensor
  scale_result : Option Tensor
  algo_idx : Int
  padding_size : Int

/-- The entry point `fp8_mm` applied to a bundled argument record. -/
def fp8_mm_call (st : GlobalState) (venv : VendorEnv) (c : CallArgs) :
    Except Err Unit × List Event :=
  fp8_mm st venv c.a c.b c.result c.scale_a c.scale_b c.scale_result
    c.algo_idx c.padding_size

/-- Modelled from the spec: the caller of this file (the extension
registration code, not part of the provided sources) calls
`create_workspace` exactly once at module load, before any `fp8_mm`
call, and the `fp8_mm` calls then share the file-scope globals.  A run
is that one `create_workspace` (on the zero-initialized globals)
followed, when it succeeds, by a sequence of `fp8_mm` calls, all reading
the same global state. -/
def moduleRun (envVar : Option String) (allocPtr allocStatus : Nat)
    (venv : VendorEnv) (calls : List CallArgs) : GlobalState × List Event :=
  let setup := create_workspace envVar allocPtr allocStatus
    { workspace := 0, workspace_size := 0 }
  match setup.1 with
  | .error _ => (setup.2.1, setup.2.2)
  | .ok _ =>
    (setup.2.1,
      setup.2.2 ++ (calls.map (fun c => (fp8_mm_call setup.2.1 venv c).2)).flatten)

/-- Projection of the `GemmInputs` record out of a `setProblem` event. -/
def eventInputs : Event → Option GemmInputs
  | .setProblem _ _ _ _ _ _ _ _ _ _ _ _ inputs => some inputs
  | _ => none

/-- An event is compatible with the shared module state `st`: it is not
an allocation or deallocation, any workspace-size it forwards is the
global `workspace_size`, and any workspace pointer it forwards is the
global `workspace`. -/
def sharedStateOK (st : GlobalState) (e : Event) : Prop :=
  evKind e ≠ 0 ∧ evKind e ≠ 1 ∧
  (∀ nB, e = Event.setMaxWorkspaceBytes nB → nB = st.workspace_size) ∧
  (∀ al p, e = Event.initAlgo al p → p = st.workspace)

/-- Sample global state: workspace at address 4096, default 32 MiB. -/
def gs0 : GlobalState := { workspace := 4096, workspace_size := 33554432 }

/-- Sample vendor responses: every call succeeds, the heuristic returns
one solution whose algorithm has index 7, and index lookup returns an
algorithm carrying the requested index. -/
def venv0 : VendorEnv :=
  { heuristicResult := [{ algo := { id := 7 } }],
    heuristicStatus := 0,
    getIndexFromAlgo := fun al => al.id,
    algosFromIndex := fun i => [{ algo := { id := i } }],
    getAlgosStatus := 0,
    setProblemStatus := 0,
    initStatus := 0,
    runStatus := 0 }

/-- Vendor responses whose heuristic query returns zero solutions. -/
def venvE : VendorEnv :=
  { venv0 with heuristicResult := [] }

/-- Sample operand `a`: fp8, 2 x 3, row-major (strides `[3, 1]`). -/
def aT : Tensor :=
  { dtype := .float8_e4m3fnuz, sizes := [2, 3], strides := [3, 1],
    dataPtr := 1, data := [5] }

/-- Sample operand `b`: fp8, 3 x 4, row-major (strides `[4, 1]`). -/
def bT : Tensor :=
  { dtype := .float8_e4m3fnuz, sizes := [3, 4], strides := [4, 1],
    dataPtr := 2, data := [6] }

/-- Sample output tensor: fp16, 2 x 4. -/
def rT : Tensor :=
  { dtype := .float16, sizes := [2, 4], strides := [4, 1],
    dataPtr := 3, data := [] }

/-- Sample scale tensor for `a`, at address 10. -/
def saT : Tensor :=
  { dtype := .float32, sizes := [1], strides := [1], dataPtr := 10, data := [] }

/-- Sample scale tensor for `b`, at address 20. -/
def sbT : Tensor :=
  { dtype := .float32, sizes := [1], strides := [1], dataPtr := 20, data := [] }

instance {ε α : Type} [DecidableEq ε] [DecidableEq α] : DecidableEq (Except ε α) := fun
  | .ok a, .ok b => decidable_of_iff (a = b) (by simp)
  | .ok _, .error _ => .isFalse (by simp)
  | .error _, .ok _ => .isFalse (by simp)
  | .error e, .error f => decidable_of_iff (e = f) (by simp)

/-- The three events every launch emits before algorithm selection,
written out explicitly (bookkeeping for the theorems below; the
authoritative definition is `fp8_mm_launch`, and `fp8_mm_launch_run`
proves the two agree). -/
def launchTrace (st : GlobalState) (a b result scale_a scale_b : Tensor)
    (scale_result : Option Tensor) (padding_size : Int) (ot : HipblasDatatype)
    (ta0 tb0 : Bool) : List Event :=
  [Event.setMaxWorkspaceBytes st.workspace_size,
   Event.gemmConstruct (if tb0 then .N else .T) (if ta0 then .N else .T)
     .r8fE4m3Fnuz .r8fE4m3Fnuz ot ot,
   Event.setProblem (b.sizes.getD 1 0) (a.sizes.getD 0 0)
     (b.sizes.getD 0 0 - padding_size) 1
     (if tb0 then b.sizes.getD 1 0 else b.sizes.getD 0 0 - padding_size + padding_size)
     (if ta0 then b.sizes.getD 0 0 - padding_size else a.sizes.getD 0 0)
     (b.sizes.getD 1 0) (b.sizes.getD 1 0)
     (b.sizes.getD 1 0 * (b.sizes.getD 0 0 - padding_size + padding_size))
     (a.sizes.getD 0 0 * (b.sizes.getD 0 0 - padding_size))
     (b.sizes.getD 1 0 * a.sizes.getD 0 0) (b.sizes.getD 1 0 * a.sizes.getD 0 0)
     { a := b.dataPtr, b := a.dataPtr, c := result.dataPtr, d := result.dataPtr,
       alpha := 1, beta := 0, scaleA := scale_a.dataPtr, scaleB := scale_b.dataPtr,
       scaleD := Option.map Tensor.dataPtr scale_result }]

end VllmFp8

namespace VllmFp8

theorem CHECK_HIPBLASLT_ERROR_error_eq (s : Nat) (e : Err)
    (h : CHECK_HIPBLASLT_ERROR s = .error e) : e = .exited EXIT_FAILURE := by
  unfold CHECK_HIPBLASLT_ERROR at h
  by_cases hs : s ≠ HIPBLAS_STATUS_SUCCESS
  · rw [if_pos hs] at h
    injection h with h2
    exact h2.symm
  · rw [if_neg hs] at h
    exact absurd h (by simp)

theorem CHECK_HIP_ERROR_error_eq (s : Nat) (e : Err)
    (h : CHECK_HIP_ERROR s = .error e) : e = .exited EXIT_FAILURE := by
  unfold CHECK_HIP_ERROR at h
  by_cases hs : s ≠ hipSuccess
  · rw [if_pos hs] at h
    injection h with h2
    exact h2.symm
  · rw [if_neg hs] at h
    exact absurd h (by simp)

theorem fp8_mm_invalid (st : GlobalState) (venv : VendorEnv)
    (a b result scale_a scale_b : Tensor) (scale_result : Option Tensor)
    (algo_idx padding_size : Int)
    (h : ¬ validArgs a b result padding_size) :
    ∃ msg, fp8_mm st venv a b result scale_a scale_b scale_result
      algo_idx padding_size = (.error (.checkError msg), []) ∧
      msg ∈ ["The input tensors type should be float8_e4m3fnuz.",
        "Input tensors must be 2-D.", "a dim 1 must match b dim 0.",
        "Only float16, bfloat16 or float8_e4m3fnuz are supported as the output dtype."] := by
  unfold fp8_mm
  by_cases h1 : a.dtype = .float8_e4m3fnuz ∧ b.dtype = .float8_e4m3fnuz
  · rw [if_neg (not_not_intro h1)]
    by_cases h2 : a.dim = 2 ∧ b.dim = 2
    · rw [if_neg (not_not_intro h2)]
      by_cases h3 : a.sizes.getD 1 0 = b.sizes.getD 0 0 - padding_size
      · rw [if_neg (not_not_intro h3)]
        by_cases h4 : result.dtype = .float8_e4m3fnuz ∨ result.dtype = .float16 ∨
            result.dtype = .bfloat16
        · exact absurd ⟨h1, h2, h3, h4⟩ h
        · rw [if_pos h4]; exact ⟨_, rfl, by simp⟩
      · rw [if_pos h3]; exact ⟨_, rfl, by simp⟩
    · rw [if_pos h2]; exact ⟨_, rfl, by simp⟩
  · rw [if_pos h1]; exact ⟨_, rfl, by simp⟩

theorem fp8_mm_eq_launch (st : GlobalState) (venv : VendorEnv)
    (a b result scale_a scale_b : Tensor) (scale_result : Option Tensor)
    (algo_idx padding_size : Int) (ta tb : Bool)
    (h : validArgs a b result padding_size)
    (hb : inferTranspose b.strides b.sizes = some tb)
    (ha : inferTranspose a.strides a.sizes = some ta) :
    fp8_mm st venv a b result scale_a scale_b scale_result algo_idx padding_size =
      fp8_mm_launch st venv a b result scale_a scale_b scale_result algo_idx
        padding_size (hipblasOutType result.dtype) ta tb := by
  obtain ⟨h1, h2, h3, h4⟩ := h
  unfold fp8_mm
  rw [if_neg (not_not_intro h1), if_neg (not_not_intro h2),
    if_neg (not_not_intro h3), if_neg (not_not_intro h4), hb, ha]

theorem fp8_mm_assert_b (st : GlobalState) (venv : VendorEnv)
    (a b result scale_a scale_b : Tensor) (scale_result : Option Tensor)
    (algo_idx padding_size : Int)
    (h : validArgs a b result padding_size)
    (hb : inferTranspose b.strides b.sizes = none) :
    fp8_mm st venv a b result scale_a scale_b scale_result algo_idx padding_size =
      (.error (.assertFail
        "unusual strides detected, may need to clone a contiguous tensor"), []) := by
  obtain ⟨h1, h2, h3, h4⟩ := h
  unfold fp8_mm
  rw [if_neg (not_not_intro h1), if_neg (not_not_intro h2),
    if_neg (not_not_intro h3), if_neg (not_not_intro h4), hb]

theorem fp8_mm_assert_a (st : GlobalState) (venv : VendorEnv)
    (a b result scale_a scale_b : Tensor) (scale_result : Option Tensor)
    (algo_idx padding_size : Int) (tb : Bool)
    (h : validArgs a b result padding_size)
    (hb : inferTranspose b.strides b.sizes = some tb)
    (ha : inferTranspose a.strides a.sizes = none) :
    fp8_mm st venv a b result scale_a scale_b scale_result algo_idx padding_size =
      (.error (.assertFail
        "unusual strides detected, may need to clone a contiguous tensor"), []) := by
  obtain ⟨h1, h2, h3, h4⟩ := h
  unfold fp8_mm
  rw [if_neg (not_not_intro h1), if_neg (not_not_intro h2),
    if_neg (not_not_intro h3), if_neg (not_not_intro h4), hb, ha]

theorem fp8_mm_launch_run (st : GlobalState) (venv : VendorEnv)
    (a b result scale_a scale_b : Tensor) (scale_result : Option Tensor)
    (algo_idx padding_size : Int) (ot : HipblasDatatype) (ta0 tb0 : Bool) :
    fp8_mm_launch st venv a b result scale_a scale_b scale_result algo_idx
      padding_size ot ta0 tb0 =
      match CHECK_HIPBLASLT_ERROR venv.setProblemStatus with
      | .error e =>
        (.error e, launchTrace st a b result scale_a scale_b scale_result
          padding_size ot ta0 tb0)
      | .ok _ =>
        fp8_mm_selectAlgo st venv algo_idx
          (launchTrace st a b result scale_a scale_b scale_result
            padding_size ot ta0 tb0) := by
  cases ta0 <;> cases tb0 <;> rfl

theorem fp8_mm_finish_trace (st : GlobalState) (venv : VendorEnv) (i : Int)
    (tr : List Event) :
    ∃ s, (fp8_mm_finish st venv i tr).2 = tr ++ s := by
  unfold fp8_mm_finish
  by_cases hg : venv.getAlgosStatus ≠ HIPBLAS_STATUS_SUCCESS
  · rw [if_pos hg]; exact ⟨_, rfl⟩
  · rw [if_neg hg]
    cases halgos : venv.algosFromIndex (intToInt32 i) with
    | nil => exact ⟨_, rfl⟩
    | cons t ts =>
      cases hi : CHECK_HIPBLASLT_ERROR venv.initStatus with
      | error e => exact ⟨_, (List.append_assoc _ _ _)⟩
      | ok u =>
        cases hr : CHECK_HIPBLASLT_ERROR venv.runStatus with
        | error e =>
          exact ⟨[Event.getAlgosFromIndex (intToInt32 i), Event.initAlgo t.algo st.workspace,
            Event.run], by simp⟩
        | ok u2 =>
          exact ⟨[Event.getAlgosFromIndex (intToInt32 i), Event.initAlgo t.algo st.workspace,
            Event.run], by simp⟩

theorem fp8_mm_selectAlgo_trace (st : GlobalState) (venv : VendorEnv) (i : Int)
    (tr : List Event) :
    ∃ s, (fp8_mm_selectAlgo st venv i tr).2 = tr ++ s := by
  unfold fp8_mm_selectAlgo
  by_cases h0 : i = 0
  · rw [if_pos h0]
    cases hh : CHECK_HIPBLASLT_ERROR venv.heuristicStatus with
    | error e => exact ⟨_, rfl⟩
    | ok u =>
      cases hres : venv.heuristicResult with
      | nil => exact ⟨_, rfl⟩
      | cons h1 hs =>
        simp only [List.isEmpty_cons, if_neg Bool.false_ne_true]
        obtain ⟨s, hsx⟩ := fp8_mm_finish_trace st venv
          (venv.getIndexFromAlgo h1.algo) (tr ++ [Event.algoGetHeuristic 1])
        exact ⟨_, by rw [hsx, List.append_assoc]⟩
  · rw [if_neg h0]
    exact fp8_mm_finish_trace st venv i tr

theorem fp8_mm_trace_eq (st : GlobalState) (venv : VendorEnv)
    (a b result scale_a scale_b : Tensor) (scale_result : Option Tensor)
    (algo_idx padding_size : Int) (ta tb : Bool)
    (h : validArgs a b result padding_size)
    (hb : inferTranspose b.strides b.sizes = some tb)
    (ha : inferTranspose a.strides a.sizes = some ta) :
    ∃ rest,
      (fp8_mm st venv a b result scale_a scale_b scale_result algo_idx
        padding_size).2 =
      launchTrace st a b result scale_a scale_b scale_result padding_size
        (hipblasOutType result.dtype) ta tb ++ rest := by
  rw [fp8_mm_eq_launch st venv a b result scale_a scale_b scale_result algo_idx
    padding_size ta tb h hb ha]
  rw [fp8_mm_launch_run]
  cases hsp : CHECK_HIPBLASLT_ERROR venv.setProblemStatus with
  | error e => exact ⟨[], by simp⟩
  | ok u => exact fp8_mm_selectAlgo_trace st venv algo_idx _

end VllmFp8

namespace VllmFp8

theorem launchTrace_sharedStateOK (st : GlobalState)
    (a b result scale_a scale_b : Tensor) (scale_result : Option Tensor)
    (padding_size : Int) (ot : HipblasDatatype) (ta0 tb0 : Bool) :
    ∀ e ∈ launchTrace st a b result scale_a scale_b scale_result padding_size
      ot ta0 tb0, sharedStateOK st e := by
  simp [launchTrace, sharedStateOK, evKind]

theorem fp8_mm_finish_cases (st : GlobalState) (venv : VendorEnv) (i : Int)
    (tr : List Event) :
    ∃ s, (fp8_mm_finish st venv i tr).2 = tr ++ s ∧
      s.map evKind ∈ ([[6], [6, 7], [6, 7, 8]] : List (List Nat)) ∧
      (∀ e ∈ s, sharedStateOK st e) ∧
      (∀ c, (fp8_mm_finish st venv i tr).1 = .error (.exited c) →
        c = EXIT_FAILURE) ∧
      (∀ msg, (fp8_mm_finish st venv i tr).1 ≠ .error (.checkError msg)) ∧
      (∀ m2, (fp8_mm_finish st venv i tr).1 ≠ .error (.assertFail m2)) ∧
      ((fp8_mm_finish st venv i tr).1 = .ok () → s.map evKind = [6, 7, 8]) := by
  unfold fp8_mm_finish
  by_cases hg : venv.getAlgosStatus ≠ HIPBLAS_STATUS_SUCCESS
  · rw [if_pos hg]
    exact ⟨[Event.getAlgosFromIndex (intToInt32 i)], rfl, by simp [evKind],
      by simp [sharedStateOK, evKind], by simp, by simp, by simp, by simp⟩
  · rw [if_neg hg]
    cases halgos : venv.algosFromIndex (intToInt32 i) with
    | nil =>
      exact ⟨[Event.getAlgosFromIndex (intToInt32 i)], rfl, by simp [evKind],
        by simp [sharedStateOK, evKind], by simp, by simp, by simp, by simp⟩
    | cons t ts =>
      cases hi : CHECK_HIPBLASLT_ERROR venv.initStatus with
      | error e =>
        obtain rfl := CHECK_HIPBLASLT_ERROR_error_eq venv.initStatus e hi
        exact ⟨[Event.getAlgosFromIndex (intToInt32 i), Event.initAlgo t.algo st.workspace],
          by simp, by simp [evKind], by simp [sharedStateOK, evKind],
          by simp [eq_comm], by simp, by simp, by simp⟩
      | ok u =>
        cases hr : CHECK_HIPBLASLT_ERROR venv.runStatus with
        | error e =>
          obtain rfl := CHECK_HIPBLASLT_ERROR_error_eq venv.runStatus e hr
          exact ⟨[Event.getAlgosFromIndex (intToInt32 i), Event.initAlgo t.algo st.workspace,
            Event.run], by simp, by simp [evKind], by simp [sharedStateOK, evKind],
            by simp [eq_comm], by simp, by simp, by simp⟩
        | ok u2 =>
          exact ⟨[Event.getAlgosFromIndex (intToInt32 i), Event.initAlgo t.algo st.workspace,
            Event.run], by simp, by simp [evKind], by simp [sharedStateOK, evKind],
            by simp, by simp, by simp, by simp [evKind]⟩

theorem fp8_mm_selectAlgo_cases (st : GlobalState) (venv : VendorEnv) (i : Int)
    (tr : List Event) :
    ∃ s, (fp8_mm_selectAlgo st venv i tr).2 = tr ++ s ∧
      s.map evKind ∈
        ([[5], [5, 6], [5, 6, 7], [5, 6, 7, 8], [6], [6, 7], [6, 7, 8]] :
          List (List Nat)) ∧
      (∀ e ∈ s, sharedStateOK st e) ∧
      (∀ c, (fp8_mm_selectAlgo st venv i tr).1 = .error (.exited c) →
        c = EXIT_FAILURE) ∧
      (∀ msg, (fp8_mm_selectAlgo st venv i tr).1 ≠ .error (.checkError msg)) ∧
      (∀ m2, (fp8_mm_selectAlgo st venv i tr).1 ≠ .error (.assertFail m2)) ∧
      ((fp8_mm_selectAlgo st venv i tr).1 = .ok () →
        s.map evKind = [5, 6, 7, 8] ∨ s.map evKind = [6, 7, 8]) := by
  unfold fp8_mm_selectAlgo
  by_cases h0 : i = 0
  · rw [if_pos h0]
    cases hh : CHECK_HIPBLASLT_ERROR venv.heuristicStatus with
    | error e =>
      obtain rfl := CHECK_HIPBLASLT_ERROR_error_eq venv.heuristicStatus e hh
      exact ⟨[Event.algoGetHeuristic 1], rfl, by simp [evKind],
        by simp [sharedStateOK, evKind], by simp [eq_comm], by simp, by simp,
        by simp⟩
    | ok u =>
      cases hres : venv.heuristicResult with
      | nil =>
        exact ⟨[Event.algoGetHeuristic 1], rfl, by simp [evKind],
          by simp [sharedStateOK, evKind], by simp, by simp, by simp, by simp⟩
      | cons h1 hs =>
        simp only [List.isEmpty_cons, if_neg Bool.false_ne_true]
        obtain ⟨s, hs2, hk, hok, hex, hch, has, hoks⟩ := fp8_mm_finish_cases st
          venv (venv.getIndexFromAlgo h1.algo) (tr ++ [Event.algoGetHeuristic 1])
        refine ⟨Event.algoGetHeuristic 1 :: s,
          by rw [hs2, List.append_assoc]; rfl, ?_, ?_, hex, hch, has,
          fun h2 => Or.inl (by simp [evKind, hoks h2])⟩
        · simp only [List.map_cons]
          simp at hk
          rcases hk with hk | hk | hk <;> simp [evKind, hk]
        · intro e he
          rcases List.mem_cons.mp he with rfl | he2
          · simp [sharedStateOK, evKind]
          · exact hok e he2
  · rw [if_neg h0]
    obtain ⟨s, hs2, hk, hok, hex, hch, has, hoks⟩ := fp8_mm_finish_cases st venv i tr
    refine ⟨s, hs2, ?_, hok, hex, hch, has, fun h2 => Or.inr (hoks h2)⟩
    simp at hk ⊢
    tauto

theorem fp8_mm_cases (st : GlobalState) (venv : VendorEnv)
    (a b result scale_a scale_b : Tensor) (scale_result : Option Tensor)
    (algo_idx padding_size : Int) :
    ((fp8_mm st venv a b result scale_a scale_b scale_result algo_idx
        padding_size).2.map evKind ∈
      ([[], [2, 3, 4], [2, 3, 4, 5], [2, 3, 4, 5, 6], [2, 3, 4, 5, 6, 7],
        [2, 3, 4, 5, 6, 7, 8], [2, 3, 4, 6], [2, 3, 4, 6, 7],
        [2, 3, 4, 6, 7, 8]] : List (List Nat))) ∧
    (∀ e ∈ (fp8_mm st venv a b result scale_a scale_b scale_result algo_idx
        padding_size).2, sharedStateOK st e) ∧
    (∀ c, (fp8_mm st venv a b result scale_a scale_b scale_result algo_idx
        padding_size).1 = .error (.exited c) → c = EXIT_FAILURE) ∧
    ((fp8_mm st venv a b result scale_a scale_b scale_result algo_idx
        padding_size).1 ≠ .error (.checkError "No valid solution found!")) ∧
    (∀ m2, (fp8_mm st venv a b result scale_a scale_b scale_result algo_idx
        padding_size).1 = .error (.assertFail m2) →
      inferTranspose b.strides b.sizes = none ∨
      inferTranspose a.strides a.sizes = none) ∧
    ((fp8_mm st venv a b result scale_a scale_b scale_result algo_idx
        padding_size).1 = .ok () →
      (fp8_mm st venv a b result scale_a scale_b scale_result algo_idx
        padding_size).2.map evKind = [2, 3, 4, 5, 6, 7, 8] ∨
      (fp8_mm st venv a b result scale_a scale_b scale_result algo_idx
        padding_size).2.map evKind = [2, 3, 4, 6, 7, 8]) := by
  by_cases hv : validArgs a b result padding_size
  · cases hbi : inferTranspose b.strides b.sizes with
    | none =>
      rw [fp8_mm_assert_b st venv a b result scale_a scale_b scale_result
        algo_idx padding_size hv hbi]
      exact ⟨by simp, by simp, by simp, by simp, by simp, by simp⟩
    | some tb =>
      cases hai : inferTranspose a.strides a.sizes with
      | none =>
        rw [fp8_mm_assert_a st venv a b result scale_a scale_b scale_result
          algo_idx padding_size tb hv hbi hai]
        exact ⟨by simp, by simp, by simp, by simp, fun m2 _ => Or.inr rfl,
          by simp⟩
      | some ta =>
        rw [fp8_mm_eq_launch st venv a b result scale_a scale_b scale_result
          algo_idx padding_size ta tb hv hbi hai, fp8_mm_launch_run]
        cases hsp : CHECK_HIPBLASLT_ERROR venv.setProblemStatus with
        | error e =>
          obtain rfl := CHECK_HIPBLASLT_ERROR_error_eq venv.setProblemStatus e hsp
          refine ⟨by simp [launchTrace, evKind], ?_, by simp [eq_comm],
            by simp, by simp, by simp⟩
          exact launchTrace_sharedStateOK st a b result scale_a scale_b
            scale_result padding_size (hipblasOutType result.dtype) ta tb
        | ok u =>
          obtain ⟨s, hs2, hk, hok, hex, hch, has, hoks⟩ :=
            fp8_mm_selectAlgo_cases st venv algo_idx
              (launchTrace st a b result scale_a scale_b scale_result
                padding_size (hipblasOutType result.dtype) ta tb)
          refine ⟨?_, ?_, hex, hch _, fun m2 hm2 => absurd hm2 (has m2), ?_⟩
          · rw [hs2]
            simp only [List.map_append]
            simp only [launchTrace, List.map_cons, List.map_nil, evKind]
            simp at hk
            rcases hk with hk | hk | hk | hk | hk | hk | hk <;> simp [hk]
          · rw [hs2]
            intro e he
            rcases List.mem_append.mp he with he2 | he2
            · exact launchTrace_sharedStateOK st a b result scale_a scale_b
                scale_result padding_size (hipblasOutType result.dtype) ta tb
                e he2
            · exact hok e he2
          · intro h2
            rw [hs2]
            simp only [List.map_append]
            simp only [launchTrace, List.map_cons, List.map_nil, evKind]
            rcases hoks h2 with hk2 | hk2 <;> simp [hk2]
  · obtain ⟨msg, hmsg, hmem⟩ := fp8_mm_invalid st venv a b result scale_a
      scale_b scale_result algo_idx padding_size hv
    rw [hmsg]
    refine ⟨by simp, by simp, by simp, ?_, by simp, by simp⟩
    simp only [ne_eq, Except.error.injEq, Err.checkError.injEq]
    simp only [List.mem_cons, List.not_mem_nil, or_false] at hmem
    rcases hmem with rfl | rfl | rfl | rfl <;> decide

end VllmFp8

namespace VllmFp8

/-- C1: `fp8_mm` raises a `TORCH_CHECK` error with no vendor-library
call (empty event trace) exactly when one of its four tensor
preconditions fails: `a` and `b` of dtype float8_e4m3fnuz, `a` and `b`
2-D, `a.sizes[1] = b.sizes[0] - padding_size`, and the result dtype one
of float8_e4m3fnuz, float16 or bfloat16. -/
theorem C1_validation_iff (st : GlobalState) (venv : VendorEnv)
    (a b result scale_a scale_b : Tensor) (scale_result : Option Tensor)
    (algo_idx padding_size : Int) :
    ¬ validArgs a b result padding_size ↔
      ∃ msg, fp8_mm st venv a b result scale_a scale_b scale_result algo_idx
        padding_size = (.error (.checkError msg), []) := by
  constructor
  · intro h
    obtain ⟨msg, hm, _⟩ := fp8_mm_invalid st venv a b result scale_a scale_b
      scale_result algo_idx padding_size h
    exact ⟨msg, hm⟩
  · rintro ⟨msg, hm⟩ hv
    cases hbi : inferTranspose b.strides b.sizes with
    | none =>
      rw [fp8_mm_assert_b st venv a b result scale_a scale_b scale_result
        algo_idx padding_size hv hbi] at hm
      simp at hm
    | some tb =>
      cases hai : inferTranspose a.strides a.sizes with
      | none =>
        rw [fp8_mm_assert_a st venv a b result scale_a scale_b scale_result
          algo_idx padding_size tb hv hbi hai] at hm
        simp at hm
      | some ta =>
        obtain ⟨rest, htr⟩ := fp8_mm_trace_eq st venv a b result scale_a
          scale_b scale_result algo_idx padding_size ta tb hv hbi hai
        rw [hm] at htr
        simp [launchTrace] at htr

/-- C2 (amended): the transpose flag of an operand is computed from its
strides and sizes alone, with the column-major test taking priority:
the pattern `strides[0] = 1 ∧ strides[1] ≥ max 1 sizes[0]` gives
`false`, and the pattern `strides[1] = 1 ∧ strides[0] ≥ max 1 sizes[1]`
gives `true` only when the first pattern does not also hold; the tensor
payloads play no role anywhere in `fp8_mm`. -/
theorem C2_stride_inference (strides sizes : List Int) :
    (strides.getD 0 0 = 1 ∧ strides.getD 1 0 ≥ max 1 (sizes.getD 0 0) →
      inferTranspose strides sizes = some false) ∧
    (¬ (strides.getD 0 0 = 1 ∧ strides.getD 1 0 ≥ max 1 (sizes.getD 0 0)) →
      strides.getD 1 0 = 1 ∧ strides.getD 0 0 ≥ max 1 (sizes.getD 1 0) →
      inferTranspose strides sizes = some true) ∧
    (∀ st venv a b result scale_a scale_b scale_result algo_idx padding_size
        d1 d2,
      fp8_mm st venv { a with data := d1 } { b with data := d2 } result
        scale_a scale_b scale_result algo_idx padding_size =
      fp8_mm st venv a b result scale_a scale_b scale_result algo_idx
        padding_size) := by
  refine ⟨fun h => ?_, fun hn h => ?_, ?_⟩
  · unfold inferTranspose
    rw [if_pos h]
  · unfold inferTranspose
    rw [if_neg hn, if_pos h]
  · intro st venv a b result scale_a scale_b scale_result algo_idx
      padding_size d1 d2
    cases a
    cases b
    rfl

/-- C2 counterexample: for a 1 x 1 operand with strides `[1, 1]` both
stride patterns hold; the claim predicts `transpose = true` from the
row-major pattern, but the code takes the column-major branch first and
infers `false`. -/
theorem C2_counterexample :
    (([1, 1] : List Int).getD 1 0 = 1 ∧
      ([1, 1] : List Int).getD 0 0 ≥ max 1 (([1, 1] : List Int).getD 1 0)) ∧
    inferTranspose [1, 1] [1, 1] = some false ∧
    inferTranspose [1, 1] [1, 1] ≠ some true := by decide

/-- C2 witness: a 2 x 3 row-major operand is inferred transposed. -/
theorem C2_witness : inferTranspose [3, 1] [2, 3] = some true :=
  (C2_stride_inference [3, 1] [2, 3]).2.1 (by decide) (by decide)

/-- C9: the stride-based layout inference is partial: it yields no flag
exactly when neither the column-major nor the row-major pattern holds;
in that case `fp8_mm` reaches the `assert(false)` branch (before any
vendor call), and when both operands match a pattern that branch is
unreachable. -/
theorem C9_unusual_strides :
    (∀ strides sizes : List Int,
      inferTranspose strides sizes = none ↔
        ¬ (strides.getD 0 0 = 1 ∧ strides.getD 1 0 ≥ max 1 (sizes.getD 0 0)) ∧
        ¬ (strides.getD 1 0 = 1 ∧ strides.getD 0 0 ≥ max 1 (sizes.getD 1 0))) ∧
    (∀ st venv a b result scale_a scale_b scale_result algo_idx padding_size,
      validArgs a b result padding_size →
      inferTranspose b.strides b.sizes = none →
      fp8_mm st venv a b result scale_a scale_b scale_result algo_idx
        padding_size =
        (.error (.assertFail
          "unusual strides detected, may need to clone a contiguous tensor"),
          [])) ∧
    (∀ st venv a b result scale_a scale_b scale_result algo_idx padding_size tb,
      validArgs a b result padding_size →
      inferTranspose b.strides b.sizes = some tb →
      inferTranspose a.strides a.sizes = none →
      fp8_mm st venv a b result scale_a scale_b scale_result algo_idx
        padding_size =
        (.error (.assertFail
          "unusual strides detected, may need to clone a contiguous tensor"),
          [])) ∧
    (∀ st venv a b result scale_a scale_b scale_result algo_idx padding_size
        ta tb,
      inferTranspose b.strides b.sizes = some tb →
      inferTranspose a.strides a.sizes = some ta →
      ∀ m2, (fp8_mm st venv a b result scale_a scale_b scale_result algo_idx
        padding_size).1 ≠ .error (.assertFail m2)) := by
  refine ⟨?_, ?_, ?_, ?_⟩
  · intro strides sizes
    unfold inferTranspose
    by_cases hP1 : strides.getD 0 0 = 1 ∧ strides.getD 1 0 ≥ max 1 (sizes.getD 0 0)
    · rw [if_pos hP1]
      exact iff_of_false (by simp) (fun hcon => hcon.1 hP1)
    · rw [if_neg hP1]
      by_cases hP2 : strides.getD 1 0 = 1 ∧ strides.getD 0 0 ≥ max 1 (sizes.getD 1 0)
      · rw [if_pos hP2]
        exact iff_of_false (by simp) (fun hcon => hcon.2 hP2)
      · rw [if_neg hP2]
        exact iff_of_true rfl ⟨hP1, hP2⟩
  · intro st venv a b result scale_a scale_b scale_result algo_idx padding_size
      hv hbi
    exact fp8_mm_assert_b st venv a b result scale_a scale_b scale_result
      algo_idx padding_size hv hbi
  · intro st venv a b result scale_a scale_b scale_result algo_idx padding_size
      tb hv hbi hai
    exact fp8_mm_assert_a st venv a b result scale_a scale_b scale_result
      algo_idx padding_size tb hv hbi hai
  · intro st venv a b result scale_a scale_b scale_result algo_idx padding_size
      ta tb hbi hai m2 hm2
    rcases (fp8_mm_cases st venv a b result scale_a scale_b scale_result
      algo_idx padding_size).2.2.2.2.1 m2 hm2 with hnone | hnone
    · rw [hbi] at hnone; exact absurd hnone (by simp)
    · rw [hai] at hnone; exact absurd hnone (by simp)

/-- C9 witness: with both sample operands matching the row-major
pattern, no assert branch is reachable. -/
theorem C9_witness :
    (fp8_mm gs0 venv0 aT bT rT saT sbT none 5 0).1 ≠
      .error (.assertFail
        "unusual strides detected, may need to clone a contiguous tensor") :=
  (C9_unusual_strides).2.2.2 gs0 venv0 aT bT rT saT sbT none 5 0 true true
    (by decide) (by decide) _

/-- C10: the `TORCH_CHECK(!heuristicResult.empty(), ...)` emptiness
check can never fire (the out-of-bounds read of `heuristicResult[0]`
happens first): no outcome of `fp8_mm` is that check error, and a
heuristic query returning zero solutions ends in the out-of-bounds
access. -/
theorem C10_oob_before_check :
    (∀ st venv a b result scale_a scale_b scale_result algo_idx padding_size,
      (fp8_mm st venv a b result scale_a scale_b scale_result algo_idx
        padding_size).1 ≠ .error (.checkError "No valid solution found!")) ∧
    (∀ st venv a b result scale_a scale_b scale_result padding_size ta tb,
      validArgs a b result padding_size →
      inferTranspose b.strides b.sizes = some tb →
      inferTranspose a.strides a.sizes = some ta →
      venv.setProblemStatus = HIPBLAS_STATUS_SUCCESS →
      venv.heuristicStatus = HIPBLAS_STATUS_SUCCESS →
      venv.heuristicResult = [] →
      (fp8_mm st venv a b result scale_a scale_b scale_result 0
        padding_size).1 = .error (.oobIndex "heuristicResult")) := by
  constructor
  · intro st venv a b result scale_a scale_b scale_result algo_idx padding_size
    exact (fp8_mm_cases st venv a b result scale_a scale_b scale_result
      algo_idx padding_size).2.2.2.1
  · intro st venv a b result scale_a scale_b scale_result padding_size ta tb
      hv hbi hai hsp hh hres
    rw [fp8_mm_eq_launch st venv a b result scale_a scale_b scale_result 0
      padding_size ta tb hv hbi hai, fp8_mm_launch_run]
    simp only [CHECK_HIPBLASLT_ERROR, hsp, hh, ne_eq, not_true_eq_false,
      if_false]
    unfold fp8_mm_selectAlgo
    simp only [if_pos rfl, CHECK_HIPBLASLT_ERROR, hh, ne_eq, not_true_eq_false,
      if_false, hres]
    simp

/-- C10 witness: the sample call with an empty heuristic vector ends in
the out-of-bounds access, not in the emptiness check error. -/
theorem C10_witness :
    (fp8_mm gs0 venvE aT bT rT saT sbT none 0 0).1 =
      .error (.oobIndex "heuristicResult") :=
  (C10_oob_before_check).2 gs0 venvE aT bT rT saT sbT none 0 true true
    (by decide) (by decide) (by decide) (by decide) (by decide) (by decide)

end VllmFp8

namespace VllmFp8

/-- C3: for every valid call the operands are swapped for the fixed
transposed-result layout: vendor operand A is `b`'s pointer with
transpose flag `!tb` (the negation of `b`'s inferred flag), vendor
operand B is `a`'s pointer with flag `!ta`, and `setProblem` receives
`m = b.sizes[1]`, `n = a.sizes[0]`, `k = b.sizes[0] - padding_size`
(equal to `a.sizes[1]` by the shape precondition), batch count 1,
`strideA = m * (k + padding_size)`, `strideB = n * k`,
`strideC = m * n`. -/
theorem C3_problem_translation (st : GlobalState) (venv : VendorEnv)
    (a b result scale_a scale_b : Tensor) (scale_result : Option Tensor)
    (algo_idx padding_size : Int) (ta tb : Bool)
    (h : validArgs a b result padding_size)
    (hb : inferTranspose b.strides b.sizes = some tb)
    (ha : inferTranspose a.strides a.sizes = some ta) :
    transpose_result = true ∧
    b.sizes.getD 0 0 - padding_size = a.sizes.getD 1 0 ∧
    ∃ rest,
      (fp8_mm st venv a b result scale_a scale_b scale_result algo_idx
        padding_size).2 =
        Event.setMaxWorkspaceBytes st.workspace_size ::
        Event.gemmConstruct (if !tb then .T else .N) (if !ta then .T else .N)
          .r8fE4m3Fnuz .r8fE4m3Fnuz (hipblasOutType result.dtype)
          (hipblasOutType result.dtype) ::
        Event.setProblem (b.sizes.getD 1 0) (a.sizes.getD 0 0)
          (b.sizes.getD 0 0 - padding_size) 1
          (if !tb then b.sizes.getD 0 0 - padding_size + padding_size
            else b.sizes.getD 1 0)
          (if !ta then a.sizes.getD 0 0 else b.sizes.getD 0 0 - padding_size)
          (b.sizes.getD 1 0) (b.sizes.getD 1 0)
          (b.sizes.getD 1 0 * (b.sizes.getD 0 0 - padding_size + padding_size))
          (a.sizes.getD 0 0 * (b.sizes.getD 0 0 - padding_size))
          (b.sizes.getD 1 0 * a.sizes.getD 0 0)
          (b.sizes.getD 1 0 * a.sizes.getD 0 0)
          { a := b.dataPtr, b := a.dataPtr, c := result.dataPtr,
            d := result.dataPtr, alpha := 1, beta := 0,
            scaleA := scale_a.dataPtr, scaleB := scale_b.dataPtr,
            scaleD := Option.map Tensor.dataPtr scale_result } :: rest := by
  obtain ⟨rest, htr⟩ := fp8_mm_trace_eq st venv a b result scale_a scale_b
    scale_result algo_idx padding_size ta tb h hb ha
  refine ⟨rfl, h.2.2.1.symm, rest, ?_⟩
  rw [htr]
  cases ta <;> cases tb <;> rfl

/-- C3 witness: the sample call translates to `m = 4`, `n = 2`,
`k = 3`, batch 1, with `b`'s pointer in operand slot A. -/
theorem C3_witness :
    ∃ rest,
      (fp8_mm gs0 venv0 aT bT rT saT sbT none 5 0).2 =
        Event.setMaxWorkspaceBytes 33554432 ::
        Event.gemmConstruct .N .N .r8fE4m3Fnuz .r8fE4m3Fnuz .r16f .r16f ::
        Event.setProblem 4 2 3 1 4 3 4 4 12 6 8 8
          { a := 2, b := 1, c := 3, d := 3, alpha := 1, beta := 0,
            scaleA := 10, scaleB := 20, scaleD := none } :: rest := by
  obtain ⟨-, -, rest, hr⟩ := C3_problem_translation gs0 venv0 aT bT rT saT sbT
    none 5 0 true true (by decide) (by decide) (by decide)
  exact ⟨rest, by simpa using hr⟩

end VllmFp8

namespace VllmFp8

/-- C5 counterexample: in the sample call, vendor operand slot A holds
`b`'s data pointer (2) while the scaleA slot holds `scale_a`'s pointer
(10), not the pointer of `b`'s scale (20): the data operands are
swapped but the scale pointers are not. -/
theorem C5_counterexample :
    eventInputs ((fp8_mm gs0 venv0 aT bT rT saT sbT none 5 0).2.getD 2
        Event.run) =
      some
        { a := 2, b := 1, c := 3, d := 3, alpha := 1, beta := 0,
          scaleA := 10, scaleB := 20, scaleD := none } ∧
    aT.dataPtr = 1 ∧ bT.dataPtr = 2 ∧ saT.dataPtr = 10 ∧ sbT.dataPtr = 20 ∧
    (10 : Nat) ≠ 20 := by decide

/-- C5 (amended): the scale pointers are passed positionally and never
swapped: `inputs.scaleA` is always `scale_a.data_ptr()` and
`inputs.scaleB` is always `scale_b.data_ptr()`, even though the data
operands are swapped (`inputs.a = b.data_ptr()`,
`inputs.b = a.data_ptr()`); so the scale paired with the vendor slot
holding one operand's data is the scale supplied for the other
operand. -/
theorem C5_scale_pointers (st : GlobalState) (venv : VendorEnv)
    (a b result scale_a scale_b : Tensor) (scale_result : Option Tensor)
    (algo_idx padding_size : Int) (ta tb : Bool)
    (h : validArgs a b result padding_size)
    (hb : inferTranspose b.strides b.sizes = some tb)
    (ha : inferTranspose a.strides a.sizes = some ta) :
    ∃ inputs,
      eventInputs ((fp8_mm st venv a b result scale_a scale_b scale_result
        algo_idx padding_size).2.getD 2 Event.run) = some inputs ∧
      inputs.a = b.dataPtr ∧ inputs.b = a.dataPtr ∧
      inputs.scaleA = scale_a.dataPtr ∧ inputs.scaleB = scale_b.dataPtr := by
  obtain ⟨rest, htr⟩ := fp8_mm_trace_eq st venv a b result scale_a scale_b
    scale_result algo_idx padding_size ta tb h hb ha
  refine
    ⟨{ a := b.dataPtr, b := a.dataPtr, c := result.dataPtr,
       d := result.dataPtr, alpha := 1, beta := 0, scaleA := scale_a.dataPtr,
       scaleB := scale_b.dataPtr,
       scaleD := Option.map Tensor.dataPtr scale_result },
     ?_, rfl, rfl, rfl, rfl⟩
  rw [htr]
  simp [launchTrace, eventInputs]

/-- C5 witness: the amended statement evaluated on the sample call. -/
theorem C5_witness :
    ∃ inputs,
      eventInputs ((fp8_mm gs0 venv0 aT bT rT saT sbT none 5 0).2.getD 2
        Event.run) = some inputs ∧
      inputs.a = bT.dataPtr ∧ inputs.b = aT.dataPtr ∧
      inputs.scaleA = saT.dataPtr ∧ inputs.scaleB = sbT.dataPtr :=
  C5_scale_pointers gs0 venv0 aT bT rT saT sbT none 5 0 true true (by decide)
    (by decide) (by decide)

/-- C6: the result pointer is used for both the C and D operands, and
the output-scale pointer is `scale_result`'s pointer when present and
the null pointer (`none`) when absent. -/
theorem C6_output_pointers (st : GlobalState) (venv : VendorEnv)
    (a b result scale_a scale_b : Tensor) (scale_result : Option Tensor)
    (algo_idx padding_size : Int) (ta tb : Bool)
    (h : validArgs a b result padding_size)
    (hb : inferTranspose b.strides b.sizes = some tb)
    (ha : inferTranspose a.strides a.sizes = some ta) :
    ∃ inputs,
      eventInputs ((fp8_mm st venv a b result scale_a scale_b scale_result
        algo_idx padding_size).2.getD 2 Event.run) = some inputs ∧
      inputs.c = result.dataPtr ∧ inputs.d = result.dataPtr ∧
      (∀ t, scale_result = some t → inputs.scaleD = some t.dataPtr) ∧
      (scale_result = none → inputs.scaleD = none) := by
  obtain ⟨rest, htr⟩ := fp8_mm_trace_eq st venv a b result scale_a scale_b
    scale_result algo_idx padding_size ta tb h hb ha
  refine
    ⟨{ a := b.dataPtr, b := a.dataPtr, c := result.dataPtr,
       d := result.dataPtr, alpha := 1, beta := 0, scaleA := scale_a.dataPtr,
       scaleB := scale_b.dataPtr,
       scaleD := Option.map Tensor.dataPtr scale_result },
     ?_, rfl, rfl, ?_, ?_⟩
  · rw [htr]
    simp [launchTrace, eventInputs]
  · intro t ht
    rw [ht]
    rfl
  · intro ht
    rw [ht]
    rfl

/-- C6 witness: with `scale_result` present its pointer is forwarded. -/
theorem C6_witness :
    ∃ inputs,
      eventInputs ((fp8_mm gs0 venv0 aT bT rT saT sbT (some saT) 5 0).2.getD 2
        Event.run) = some inputs ∧
      inputs.c = rT.dataPtr ∧ inputs.d = rT.dataPtr ∧
      (∀ t, (some saT : Option Tensor) = some t → inputs.scaleD = some t.dataPtr) ∧
      ((some saT : Option Tensor) = none → inputs.scaleD = none) :=
  C6_output_pointers gs0 venv0 aT bT rT saT sbT (some saT) 5 0 true true
    (by decide) (by decide) (by decide)

end VllmFp8

namespace VllmFp8

theorem fp8_mm_finish_mem (st : GlobalState) (venv : VendorEnv) (i : Int)
    (tr : List Event) :
    Event.getAlgosFromIndex (intToInt32 i) ∈ (fp8_mm_finish st venv i tr).2 ∧
    (∀ j : Nat, Event.algoGetHeuristic j ∈ (fp8_mm_finish st venv i tr).2 ↔
      Event.algoGetHeuristic j ∈ tr) ∧
    (∀ al p, Event.initAlgo al p ∈ (fp8_mm_finish st venv i tr).2 →
      Event.initAlgo al p ∈ tr ∨
      (p = st.workspace ∧ ∃ t ts, venv.algosFromIndex (intToInt32 i) = t :: ts ∧
        al = t.algo)) := by
  unfold fp8_mm_finish
  by_cases hg : venv.getAlgosStatus ≠ HIPBLAS_STATUS_SUCCESS
  · rw [if_pos hg]
    refine ⟨by simp, fun j => by simp, fun al p hm => ?_⟩
    simp at hm
    exact Or.inl hm
  · rw [if_neg hg]
    cases halgos : venv.algosFromIndex (intToInt32 i) with
    | nil =>
      refine ⟨by simp, fun j => by simp, fun al p hm => ?_⟩
      simp at hm
      exact Or.inl hm
    | cons t ts =>
      cases hi : CHECK_HIPBLASLT_ERROR venv.initStatus with
      | error e =>
        refine ⟨by simp, fun j => by simp, fun al p hm => ?_⟩
        simp at hm
        rcases hm with hm | ⟨hal, hp⟩
        · exact Or.inl hm
        · exact Or.inr ⟨hp, t, ts, rfl, hal⟩
      | ok u =>
        cases hr : CHECK_HIPBLASLT_ERROR venv.runStatus with
        | error e =>
          refine ⟨by simp, fun j => by simp, fun al p hm => ?_⟩
          simp at hm
          rcases hm with hm | ⟨hal, hp⟩
          · exact Or.inl hm
          · exact Or.inr ⟨hp, t, ts, rfl, hal⟩
        | ok u2 =>
          refine ⟨by simp, fun j => by simp, fun al p hm => ?_⟩
          simp at hm
          rcases hm with hm | ⟨hal, hp⟩
          · exact Or.inl hm
          · exact Or.inr ⟨hp, t, ts, rfl, hal⟩

end VllmFp8

namespace VllmFp8

/-- C4 (amended): the heuristic auto-selection path is taken if and
only if `algo_idx = 0` (requesting exactly one solution and adopting
its index); otherwise the caller's index reaches `getAlgosFromIndex`
narrowed to a 32-bit `int` by line 195 (`algoIndex[0] = algo_idx` into
a `std::vector<int>`), so a nonzero multiple of `2^32` requests index 0
explicitly; and every algorithm handed to `initialize` is the head of
the vector obtained from `getAlgosFromIndex` for the chosen narrowed
index. -/
theorem C4_algo_selection (st : GlobalState) (venv : VendorEnv)
    (a b result scale_a scale_b : Tensor) (scale_result : Option Tensor)
    (algo_idx padding_size : Int) (ta tb : Bool)
    (h : validArgs a b result padding_size)
    (hb : inferTranspose b.strides b.sizes = some tb)
    (ha : inferTranspose a.strides a.sizes = some ta)
    (hsp : venv.setProblemStatus = HIPBLAS_STATUS_SUCCESS) :
    ((Event.algoGetHeuristic 1 ∈ (fp8_mm st venv a b result scale_a scale_b
        scale_result algo_idx padding_size).2) ↔ algo_idx = 0) ∧
    (algo_idx ≠ 0 → Event.getAlgosFromIndex (intToInt32 algo_idx) ∈
      (fp8_mm st venv a b result scale_a scale_b scale_result algo_idx
        padding_size).2) ∧
    (algo_idx = 0 → venv.heuristicStatus = HIPBLAS_STATUS_SUCCESS →
      ∀ h1 hs, venv.heuristicResult = h1 :: hs →
      Event.getAlgosFromIndex (intToInt32 (venv.getIndexFromAlgo h1.algo)) ∈
        (fp8_mm st venv a b result scale_a scale_b scale_result algo_idx
          padding_size).2) ∧
    (∀ al p, Event.initAlgo al p ∈ (fp8_mm st venv a b result scale_a scale_b
        scale_result algo_idx padding_size).2 →
      ∃ idx t ts, Event.getAlgosFromIndex idx ∈
        (fp8_mm st venv a b result scale_a scale_b scale_result algo_idx
          padding_size).2 ∧
        venv.algosFromIndex idx = t :: ts ∧ al = t.algo) := by
  rw [fp8_mm_eq_launch st venv a b result scale_a scale_b scale_result
    algo_idx padding_size ta tb h hb ha, fp8_mm_launch_run]
  have hck : CHECK_HIPBLASLT_ERROR venv.setProblemStatus = .ok () := by
    simp [CHECK_HIPBLASLT_ERROR, hsp]
  rw [hck]
  unfold fp8_mm_selectAlgo
  by_cases h0 : algo_idx = 0
  · rw [if_pos h0]
    cases hh : CHECK_HIPBLASLT_ERROR venv.heuristicStatus with
    | error e =>
      refine ⟨iff_of_true (by simp) h0, fun hne => absurd h0 hne, ?_, ?_⟩
      · intro _ hh2 h1 hs hres
        rw [hh2] at hh
        simp [CHECK_HIPBLASLT_ERROR] at hh
      · intro al p hmem
        simp [launchTrace] at hmem
    | ok u =>
      cases hres : venv.heuristicResult with
      | nil =>
        refine ⟨iff_of_true (by simp) h0, fun hne => absurd h0 hne, ?_, ?_⟩
        · intro _ _ h1 hs hres2
          simp at hres2
        · intro al p hmem
          simp [launchTrace] at hmem
      | cons h1 hs =>
        simp only [List.isEmpty_cons, if_neg Bool.false_ne_true]
        obtain ⟨hga, hheur, hinit⟩ := fp8_mm_finish_mem st venv
          (venv.getIndexFromAlgo h1.algo)
          (launchTrace st a b result scale_a scale_b scale_result padding_size
            (hipblasOutType result.dtype) ta tb ++ [Event.algoGetHeuristic 1])
        refine ⟨iff_of_true ((hheur 1).mpr (by simp)) h0,
          fun hne => absurd h0 hne, ?_, ?_⟩
        · intro _ _ h1x hsx hres2
          injection hres2 with e1 e2
          subst e1
          exact hga
        · intro al p hmem
          rcases hinit al p hmem with hmem2 | ⟨hp, t, ts, halg, hal⟩
          · simp [launchTrace] at hmem2
          · exact ⟨intToInt32 (venv.getIndexFromAlgo h1.algo), t, ts, hga, halg, hal⟩
  · rw [if_neg h0]
    obtain ⟨hga, hheur, hinit⟩ := fp8_mm_finish_mem st venv algo_idx
      (launchTrace st a b result scale_a scale_b scale_result padding_size
        (hipblasOutType result.dtype) ta tb)
    refine ⟨?_, fun _ => hga, fun h0x => absurd h0x h0, ?_⟩
    · refine iff_of_false (fun hmem => ?_) h0
      have := (hheur 1).mp hmem
      simp [launchTrace] at this
    · intro al p hmem
      rcases hinit al p hmem with hmem2 | ⟨hp, t, ts, halg, hal⟩
      · simp [launchTrace] at hmem2
      · exact ⟨intToInt32 algo_idx, t, ts, hga, halg, hal⟩

/-- C4 counterexample: with `algo_idx = 2^32` the explicit path is
taken (no heuristic query, since the 64-bit compare with 0 fails), yet
the vendor index requested is 0, not `2^32`: line 195 narrows the index
to 32-bit, so index 0 can be requested explicitly and the caller index
is not forwarded unchanged. -/
theorem C4_counterexample :
    (2 ^ 32 : Int) ≠ 0 ∧
    ¬ (Event.algoGetHeuristic 1 ∈
      (fp8_mm gs0 venv0 aT bT rT saT sbT none (2 ^ 32) 0).2) ∧
    Event.getAlgosFromIndex 0 ∈
      (fp8_mm gs0 venv0 aT bT rT saT sbT none (2 ^ 32) 0).2 ∧
    ¬ (Event.getAlgosFromIndex (2 ^ 32) ∈
      (fp8_mm gs0 venv0 aT bT rT saT sbT none (2 ^ 32) 0).2) := by decide

/-- C4 witness: the sample call with an explicit index 5 (in 32-bit
range, so narrowed to itself) performs no heuristic query and requests
index 5. -/
theorem C4_witness :
    ¬ (Event.algoGetHeuristic 1 ∈
      (fp8_mm gs0 venv0 aT bT rT saT sbT none 5 0).2) ∧
    Event.getAlgosFromIndex (intToInt32 5) ∈
      (fp8_mm gs0 venv0 aT bT rT saT sbT none 5 0).2 ∧
    intToInt32 5 = 5 := by
  have h := C4_algo_selection gs0 venv0 aT bT rT saT sbT none 5 0 true true
    (by decide) (by decide) (by decide) (by decide)
  exact ⟨fun hmem => by simpa using h.1.mp hmem, h.2.1 (by decide), by decide⟩

end VllmFp8

namespace VllmFp8

theorem stoi_bounds (s : String) (v : Int) (h : stoi s = .ok v) :
    INT_MIN ≤ v ∧ v ≤ INT_MAX := by
  simp only [stoi] at h
  split at h
  · exact absurd h (by simp)
  · split at h
    · split at h
      · exact absurd h (by simp)
      · next hcond =>
        injection h with h2
        subst h2
        simp only [Bool.or_eq_true, decide_eq_true_eq, not_or] at hcond
        omega
    · split at h
      · exact absurd h (by simp)
      · next hcond =>
        injection h with h2
        subst h2
        simp only [Bool.or_eq_true, decide_eq_true_eq, not_or] at hcond
        omega

theorem create_workspace_trace (envVar : Option String) (p s : Nat)
    (st : GlobalState) :
    (create_workspace envVar p s st).2.2 = [] ∨
    (create_workspace envVar p s st).2.2 =
      [Event.hipMalloc (get_hipblaslt_workspace_size envVar)] := by
  simp only [create_workspace]
  split
  · split
    · exact Or.inr rfl
    · exact Or.inr rfl
  · exact Or.inl rfl

theorem create_workspace_size (envVar : Option String) (p s : Nat)
    (st : GlobalState) :
    (create_workspace envVar p s st).2.1.workspace_size =
      get_hipblaslt_workspace_size envVar := by
  simp only [create_workspace]
  split
  · split
    · rfl
    · rfl
  · rfl

end VllmFp8

namespace VllmFp8

/-- C7 counterexample: the environment value "-1" parses, so the
default is not used, and since `workspace_size` is a `size_t` the
parsed `-1` wraps modulo `2^64`: the computed byte count is
`2^64 - 1024`, not `1024 * (-1)` (which no `size_t` can hold). -/
theorem C7_counterexample :
    stoi "-1" = .ok (-1) ∧
    get_hipblaslt_workspace_size (some "-1") = 2 ^ 64 - 1024 ∧
    get_hipblaslt_workspace_size (some "-1") ≠ 32 * 1024 * 1024 := by decide

/-- C7 (amended): the workspace size is `32 * 1024` KiB = 32 MiB when
the variable is unset or fails to parse, and otherwise 1024 times the
parsed value reduced by the `size_t` conversion modulo `2^64` (exactly
`1024 * v` for nonnegative parsed `v`); `create_workspace` stores it in
the global state and allocates at most once; in a module run every
`fp8_mm` call forwards the same stored `workspace_size` and `workspace`
pointer, and no call allocates, frees or changes them. -/
theorem C7_workspace :
    get_hipblaslt_workspace_size none = 32 * 1024 * 1024 ∧
    (∀ s e, stoi s = .error e →
      get_hipblaslt_workspace_size (some s) = 32 * 1024 * 1024) ∧
    (∀ s v, stoi s = .ok v →
      get_hipblaslt_workspace_size (some s) =
        (intToSizeT v * 1024) % SIZE_T_MOD) ∧
    (∀ s v, stoi s = .ok v → 0 ≤ v →
      get_hipblaslt_workspace_size (some s) = 1024 * v.toNat) ∧
    (∀ envVar p s st, (create_workspace envVar p s st).2.1.workspace_size =
      get_hipblaslt_workspace_size envVar) ∧
    (∀ envVar p s st,
      (create_workspace envVar p s st).2.2.countP
        (fun e => evKind e == 0) ≤ 1) ∧
    (∀ envVar p s venv calls,
      ((moduleRun envVar p s venv calls).2.countP
        (fun e => evKind e == 0) ≤ 1) ∧
      ((moduleRun envVar p s venv calls).2.countP
        (fun e => evKind e == 1) = 0) ∧
      ((moduleRun envVar p s venv calls).1 =
        (create_workspace envVar p s
          { workspace := 0, workspace_size := 0 }).2.1) ∧
      (∀ e ∈ (moduleRun envVar p s venv calls).2,
        (∀ nB, e = Event.setMaxWorkspaceBytes nB →
          nB = (moduleRun envVar p s venv calls).1.workspace_size) ∧
        (∀ al q, e = Event.initAlgo al q →
          q = (moduleRun envVar p s venv calls).1.workspace))) := by
  have hget : ∀ s v, stoi s = .ok v →
      get_hipblaslt_workspace_size (some s) =
        (intToSizeT v * 1024) % SIZE_T_MOD := by
    intro s v h
    simp only [get_hipblaslt_workspace_size, h]
  refine ⟨by decide, ?_, hget, ?_, ?_, ?_, ?_⟩
  · intro s e h
    simp only [get_hipblaslt_workspace_size, h]
  · intro s v h hv
    obtain ⟨hlo, hhi⟩ := stoi_bounds s v h
    rw [hget s v h]
    unfold intToSizeT SIZE_T_MOD
    unfold INT_MAX at hhi
    have hlit2 : (2 : Nat) ^ 64 = 18446744073709551616 := by norm_num
    rw [hlit2]
    have hcast : ((18446744073709551616 : Nat) : Int) = 18446744073709551616 := by
      norm_num
    rw [hcast]
    have h1 : v % (18446744073709551616 : Int) = v :=
      Int.emod_eq_of_lt hv (by omega)
    rw [h1]
    omega
  · intro envVar p s st
    exact create_workspace_size envVar p s st
  · intro envVar p s st
    rcases create_workspace_trace envVar p s st with htr | htr <;>
      simp [htr, evKind]
  · intro envVar p s venv calls
    have hflat : ∀ e, e ∈ (calls.map (fun c =>
        (fp8_mm_call (create_workspace envVar p s
          { workspace := 0, workspace_size := 0 }).2.1 venv c).2)).flatten →
        sharedStateOK (create_workspace envVar p s
          { workspace := 0, workspace_size := 0 }).2.1 e := by
      intro e he
      simp only [List.mem_flatten, List.mem_map] at he
      obtain ⟨l, ⟨c, hc, rfl⟩, hel⟩ := he
      exact (fp8_mm_cases _ venv c.a c.b c.result c.scale_a c.scale_b
        c.scale_result c.algo_idx c.padding_size).2.1 e hel
    simp only [moduleRun]
    cases hcw : (create_workspace envVar p s
        { workspace := 0, workspace_size := 0 }).1 with
    | error e0 =>
      refine ⟨?_, ?_, rfl, ?_⟩
      · rcases create_workspace_trace envVar p s
          { workspace := 0, workspace_size := 0 } with htr | htr <;>
          simp [htr, evKind]
      · rcases create_workspace_trace envVar p s
          { workspace := 0, workspace_size := 0 } with htr | htr <;>
          simp [htr, evKind]
      · intro e he
        rcases create_workspace_trace envVar p s
          { workspace := 0, workspace_size := 0 } with htr | htr <;>
          rw [htr] at he <;> simp at he
        subst he
        exact ⟨by simp, by simp⟩
    | ok u =>
      refine ⟨?_, ?_, rfl, ?_⟩
      · rw [List.countP_append]
        have hz : (calls.map (fun c => (fp8_mm_call (create_workspace envVar p
            s { workspace := 0, workspace_size := 0 }).2.1 venv c).2)).flatten.countP
            (fun e => evKind e == 0) = 0 := by
          rw [List.countP_eq_zero]
          intro e he
          have := (hflat e he).1
          simp only [beq_iff_eq]
          simpa using this
        rw [hz]
        have : (create_workspace envVar p s
            { workspace := 0, workspace_size := 0 }).2.2.countP
            (fun e => evKind e == 0) ≤ 1 := by
          rcases create_workspace_trace envVar p s
            { workspace := 0, workspace_size := 0 } with htr | htr <;>
            simp [htr, evKind]
        omega
      · rw [List.countP_append]
        have hz : (calls.map (fun c => (fp8_mm_call (create_workspace envVar p
            s { workspace := 0, workspace_size := 0 }).2.1 venv c).2)).flatten.countP
            (fun e => evKind e == 1) = 0 := by
          rw [List.countP_eq_zero]
          intro e he
          have := (hflat e he).2.1
          simp only [beq_iff_eq]
          simpa using this
        have hz2 : (create_workspace envVar p s
            { workspace := 0, workspace_size := 0 }).2.2.countP
            (fun e => evKind e == 1) = 0 := by
          rcases create_workspace_trace envVar p s
            { workspace := 0, workspace_size := 0 } with htr | htr <;>
            simp [htr, evKind]
        omega
      · intro e he
        rw [List.mem_append] at he
        rcases he with he | he
        · rcases create_workspace_trace envVar p s
            { workspace := 0, workspace_size := 0 } with htr | htr <;>
            rw [htr] at he <;> simp at he
          subst he
          exact ⟨by simp, by simp⟩
        · have hsh := hflat e he
          exact ⟨hsh.2.2.1, hsh.2.2.2⟩

/-- C7 witness: an explicit setting of 64 KiB yields 65536 bytes. -/
theorem C7_witness :
    get_hipblaslt_workspace_size (some "64") = 1024 * (64 : Int).toNat :=
  C7_workspace.2.2.2.1 "64" 64 (by decide) (by decide)

end VllmFp8

namespace VllmFp8

/-- C8: there is no retry or recovery logic: any nonzero status caught
by the `CHECK_HIP_ERROR` / `CHECK_HIPBLASLT_ERROR` macros ends in
`exit(EXIT_FAILURE)` (the only exit code ever used); within one
`fp8_mm` invocation no vendor call kind ever appears twice in the call
trace, and a fully successful invocation performs each call of its path
exactly once; `create_workspace` likewise never repeats a call. -/
theorem C8_no_retry :
    (∀ s, s ≠ hipSuccess → CHECK_HIP_ERROR s = .error (.exited EXIT_FAILURE)) ∧
    (∀ s, s ≠ HIPBLAS_STATUS_SUCCESS →
      CHECK_HIPBLASLT_ERROR s = .error (.exited EXIT_FAILURE)) ∧
    (∀ st venv a b result scale_a scale_b scale_result algo_idx padding_size,
      ((fp8_mm st venv a b result scale_a scale_b scale_result algo_idx
        padding_size).2.map evKind).Nodup ∧
      (∀ c, (fp8_mm st venv a b result scale_a scale_b scale_result algo_idx
        padding_size).1 = .error (.exited c) → c = EXIT_FAILURE) ∧
      ((fp8_mm st venv a b result scale_a scale_b scale_result algo_idx
        padding_size).1 = .ok () →
        (fp8_mm st venv a b result scale_a scale_b scale_result algo_idx
          padding_size).2.map evKind = [2, 3, 4, 5, 6, 7, 8] ∨
        (fp8_mm st venv a b result scale_a scale_b scale_result algo_idx
          padding_size).2.map evKind = [2, 3, 4, 6, 7, 8])) ∧
    (∀ envVar p s st,
      ((create_workspace envVar p s st).2.2.map evKind).Nodup) := by
  refine ⟨?_, ?_, ?_, ?_⟩
  · intro s hs
    unfold CHECK_HIP_ERROR
    rw [if_pos hs]
  · intro s hs
    unfold CHECK_HIPBLASLT_ERROR
    rw [if_pos hs]
  · intro st venv a b result scale_a scale_b scale_result algo_idx padding_size
    obtain ⟨hk, hsh, hex, hch, has, hok⟩ := fp8_mm_cases st venv a b result
      scale_a scale_b scale_result algo_idx padding_size
    refine ⟨?_, hex, hok⟩
    simp only [List.mem_cons, List.not_mem_nil, or_false] at hk
    rcases hk with hk | hk | hk | hk | hk | hk | hk | hk | hk <;>
      rw [hk] <;> decide
  · intro envVar p s st
    rcases create_workspace_trace envVar p s st with htr | htr <;>
      simp [htr, evKind]

/-- C8 witness: a failing hipBLASLt status exits with
`EXIT_FAILURE`. -/
theorem C8_witness :
    CHECK_HIPBLASLT_ERROR 7 = .error (.exited EXIT_FAILURE) :=
  C8_no_retry.2.1 7 (by decide)

end VllmFp8

namespace VllmFp8

/-- C1 witness: a float32 `a` operand is rejected with a check error
and an empty trace. -/
theorem C1_witness :
    ∃ msg, fp8_mm gs0 venv0 saT bT rT saT sbT none 5 0 =
      (.error (.checkError msg), []) :=
  (C1_validation_iff gs0 venv0 saT bT rT saT sbT none 5 0).mp (by decide)

end VllmFp8
